import Mathlib

/-!
Shallow embedding of `src/bsp/esp32_s3_korvo_1/esp32_s3_korvo_1.c` (the
ESP32-S3-Korvo-1 board support package) and proofs about it.

External collaborators (the I2C driver, the iot_button driver, the codec
factories, SPIFFS, the LED indicator driver) are modelled as environments:
a record of the results they would return.  Each embedded function threads
the observable BSP state explicitly and also returns the list of hardware /
driver actions it performed, so that "performs setup exactly once" and
"no later construction step is executed" become statements about that list.

`esp_err_t` is modelled as `Int`, with the concrete values of the constants
used by the file.
-/

def ESP_OK : Int := 0

def ESP_FAIL : Int := -1

def ESP_ERR_INVALID_ARG : Int := 0x102

/-- Board-header constant (outside `src/`); its numeric value is irrelevant
to every claim, only its identity is used. -/
def BSP_I2C_NUM : Nat := 0

/-- Board-header constant (outside `src/`): the power-amplifier enable GPIO.
Only its identity matters to the claims. -/
def BSP_POWER_AMP_IO : Int := 38

/-- The observable mutable state of the BSP file: the static flag
`static bool i2c_initialized = false;`. -/
structure BspState where
  i2c_initialized : Bool
deriving DecidableEq, Repr

/-- Results the external I2C driver would return for each of the three
driver calls the file makes. -/
structure I2CEnv where
  i2c_param_config_ret : Int
  i2c_driver_install_ret : Int
  i2c_driver_delete_ret : Int
deriving DecidableEq, Repr

/-- Hardware/driver actions performed by the I2C init/deinit routines. -/
inductive HwAction where
  | param_config : HwAction
  | driver_install : HwAction
  | driver_delete : HwAction
deriving DecidableEq, Repr

/-- `bsp_i2c_init`: if `i2c_initialized` is set, return `ESP_OK` at once;
otherwise run `i2c_param_config` then `i2c_driver_install`
(each via `BSP_ERROR_CHECK_RETURN_ERR`, which returns the error unchanged
on failure), and set the flag only when both succeed.
Returns (result, new state, actions performed). -/
def bsp_i2c_init (env : I2CEnv) (s : BspState) : Int × BspState × List HwAction :=
  if s.i2c_initialized then (ESP_OK, s, [])
  else if env.i2c_param_config_ret ≠ ESP_OK then
    (env.i2c_param_config_ret, s, [HwAction.param_config])
  else if env.i2c_driver_install_ret ≠ ESP_OK then
    (env.i2c_driver_install_ret, s, [HwAction.param_config, HwAction.driver_install])
  else
    (ESP_OK, { i2c_initialized := true }, [HwAction.param_config, HwAction.driver_install])

/-- `bsp_i2c_deinit`: run `i2c_driver_delete` via `BSP_ERROR_CHECK_RETURN_ERR`
(returning its error unchanged on failure, before the flag is touched);
clear the flag only on success. -/
def bsp_i2c_deinit (env : I2CEnv) (s : BspState) : Int × BspState × List HwAction :=
  if env.i2c_driver_delete_ret ≠ ESP_OK then
    (env.i2c_driver_delete_ret, s, [HwAction.driver_delete])
  else
    (ESP_OK, { i2c_initialized := false }, [HwAction.driver_delete])

/-- C1: when the first call to `bsp_i2c_init` succeeds, a second call (under
any driver environment) is a no-op: it returns `ESP_OK`, leaves the state
unchanged and performs no hardware action.  In particular, from any state
with `i2c_initialized = true` the call is a pure no-op, and starting from an
uninitialized state the successful first call performs the hardware setup
(param-config then driver-install) exactly once. -/
theorem c1_i2c_init_idempotent (env1 env2 : I2CEnv) (s : BspState)
    (h : (bsp_i2c_init env1 s).1 = ESP_OK) :
    bsp_i2c_init env2 (bsp_i2c_init env1 s).2.1 = (ESP_OK, (bsp_i2c_init env1 s).2.1, [])
    ∧ (s.i2c_initialized = true → bsp_i2c_init env1 s = (ESP_OK, s, []))
    ∧ (s.i2c_initialized = false →
        (bsp_i2c_init env1 s).2.2 = [HwAction.param_config, HwAction.driver_install]) := by
  unfold bsp_i2c_init at *
  split_ifs at h ⊢ <;> simp_all [ESP_OK]

/-- C1 witness: a concrete successful environment, starting uninitialized. -/
theorem c1_i2c_init_idempotent_witness :
    bsp_i2c_init ⟨0, 0, 0⟩ (bsp_i2c_init ⟨0, 0, 0⟩ ⟨false⟩).2.1
      = (ESP_OK, (bsp_i2c_init ⟨0, 0, 0⟩ ⟨false⟩).2.1, [])
    ∧ ((⟨false⟩ : BspState).i2c_initialized = true →
        bsp_i2c_init ⟨0, 0, 0⟩ ⟨false⟩ = (ESP_OK, ⟨false⟩, []))
    ∧ ((⟨false⟩ : BspState).i2c_initialized = false →
        (bsp_i2c_init ⟨0, 0, 0⟩ ⟨false⟩).2.2
          = [HwAction.param_config, HwAction.driver_install]) :=
  c1_i2c_init_idempotent ⟨0, 0, 0⟩ ⟨0, 0, 0⟩ ⟨false⟩ (by decide)

/-- C6: if the underlying `i2c_driver_delete` fails, `bsp_i2c_deinit` returns
that error and leaves the state (hence the `i2c_initialized` flag)
unchanged; the flag is cleared exactly when the teardown succeeds. -/
theorem c6_i2c_deinit_flag (env : I2CEnv) (s : BspState) :
    (env.i2c_driver_delete_ret ≠ ESP_OK →
      bsp_i2c_deinit env s = (env.i2c_driver_delete_ret, s, [HwAction.driver_delete]))
    ∧ (env.i2c_driver_delete_ret = ESP_OK →
      bsp_i2c_deinit env s = (ESP_OK, ⟨false⟩, [HwAction.driver_delete])) := by
  unfold bsp_i2c_deinit
  split_ifs <;> simp_all

/-- C6 witness: a failing teardown from an initialized state leaves the flag
set and surfaces the error. -/
theorem c6_i2c_deinit_flag_witness :
    bsp_i2c_deinit ⟨0, 0, -1⟩ ⟨true⟩ = (-1, ⟨true⟩, [HwAction.driver_delete]) :=
  (c6_i2c_deinit_flag ⟨0, 0, -1⟩ ⟨true⟩).1 (by decide)

/-!
## Storage mount manager: `bsp_spiffs_mount`

`esp_vfs_spiffs_register` and `esp_spiffs_info` are external; their results
form the environment.  The source assigns `ret_val = esp_spiffs_info(...)`
after a successful registration and ends with `return ret_val`, so the
function's result on that path is the stats-query result.
-/

/-- Results of the external SPIFFS calls made by `bsp_spiffs_mount`. -/
structure SpiffsEnv where
  esp_vfs_spiffs_register_ret : Int
  esp_spiffs_info_ret : Int
  info_total : Nat
  info_used : Nat
deriving DecidableEq, Repr

/-- Log lines emitted by `bsp_spiffs_mount`. -/
inductive SpiffsLog where
  | error_stats : SpiffsLog
  | info_size (total used : Nat) : SpiffsLog
deriving DecidableEq, Repr

/-- `bsp_spiffs_mount`: register the filesystem
(`BSP_ERROR_CHECK_RETURN_ERR` returns a registration error unchanged), then
query the partition stats into `ret_val`, log an error or the sizes, and
`return ret_val`. -/
def bsp_spiffs_mount (env : SpiffsEnv) : Int × List SpiffsLog :=
  if env.esp_vfs_spiffs_register_ret ≠ ESP_OK then
    (env.esp_vfs_spiffs_register_ret, [])
  else if env.esp_spiffs_info_ret ≠ ESP_OK then
    (env.esp_spiffs_info_ret, [SpiffsLog.error_stats])
  else
    (env.esp_spiffs_info_ret, [SpiffsLog.info_size env.info_total env.info_used])

/-- C2 counterexample: with a successful registration and a failing
capacity-statistics query (`esp_spiffs_info` returning `ESP_FAIL`),
`bsp_spiffs_mount` does NOT return success: the stats-query failure is
surfaced as the function's result, refuting the claim that it is logged
only. -/
theorem c2_spiffs_mount_counterexample :
    ¬ ((bsp_spiffs_mount ⟨ESP_OK, ESP_FAIL, 0, 0⟩).1 = ESP_OK) := by
  decide

/-- C2 (amended): `bsp_spiffs_mount` returns success iff both the
registration and the capacity-statistics query succeed; a registration
failure is returned unchanged before any stats query, and a stats-query
failure is logged as an error AND returned as the function's result. -/
theorem c2_spiffs_mount_result (env : SpiffsEnv) :
    ((bsp_spiffs_mount env).1 = ESP_OK ↔
      env.esp_vfs_spiffs_register_ret = ESP_OK ∧ env.esp_spiffs_info_ret = ESP_OK)
    ∧ (env.esp_vfs_spiffs_register_ret ≠ ESP_OK →
        bsp_spiffs_mount env = (env.esp_vfs_spiffs_register_ret, []))
    ∧ (env.esp_vfs_spiffs_register_ret = ESP_OK → env.esp_spiffs_info_ret ≠ ESP_OK →
        bsp_spiffs_mount env = (env.esp_spiffs_info_ret, [SpiffsLog.error_stats])) := by
  unfold bsp_spiffs_mount
  split_ifs <;> simp_all

/-- C2 witness: registration succeeds, stats query fails; the stats error is
both logged and returned. -/
theorem c2_spiffs_mount_result_witness :
    bsp_spiffs_mount ⟨ESP_OK, ESP_FAIL, 0, 0⟩ = (ESP_FAIL, [SpiffsLog.error_stats]) :=
  (c2_spiffs_mount_result ⟨ESP_OK, ESP_FAIL, 0, 0⟩).2.2 (by decide) (by decide)

/-!
## Button configuration table and voltage-range classifier

`bsp_button_config` is the fixed table from the source: six ADC buttons,
all on ADC channel 7, each with an inclusive millivolt range and a logical
identity `BSP_BUTTON_*` (enumerators from the board header, modelled as an
inductive).  The classifier that consumes this table lives in the external
`iot_button` driver, not in this repository, so it is modelled from the
spec below (`classify`).
-/

/-- The logical button identities `BSP_BUTTON_*` of the board header. -/
inductive BspButton where
  | REC : BspButton
  | MODE : BspButton
  | PLAY : BspButton
  | SET : BspButton
  | VOLDOWN : BspButton
  | VOLUP : BspButton
deriving DecidableEq, Repr

/-- One entry of `bsp_button_config`: an ADC button
(`.type = BUTTON_TYPE_ADC`) with its channel, logical index and inclusive
voltage range in millivolts.  The ESP-IDF-5 `adc_handle` field is a pointer
to the shared ADC handle, identical in every entry, and carries no
per-entry information. -/
structure AdcButtonRange where
  adc_channel : Nat
  button_index : BspButton
  min : Nat
  max : Nat
deriving DecidableEq, Repr

/-- Number of logical buttons, `BSP_BUTTON_NUM` (the table has exactly six
initializers). -/
def BSP_BUTTON_NUM : Nat := 6

/-- The fixed table `bsp_button_config` from the source. -/
def bsp_button_config : List AdcButtonRange :=
  [ { adc_channel := 7, button_index := BspButton.REC, min := 2310, max := 2510 },
    { adc_channel := 7, button_index := BspButton.MODE, min := 1880, max := 2080 },
    { adc_channel := 7, button_index := BspButton.PLAY, min := 1560, max := 1760 },
    { adc_channel := 7, button_index := BspButton.SET, min := 1010, max := 1210 },
    { adc_channel := 7, button_index := BspButton.VOLDOWN, min := 720, max := 920 },
    { adc_channel := 7, button_index := BspButton.VOLUP, min := 280, max := 480 } ]

/-- Whether a sampled voltage lies in an entry's inclusive range. -/
def inRange (r : AdcButtonRange) (v : Nat) : Bool :=
  decide (r.min ≤ v) && decide (v ≤ r.max)

/-- Modelled from the spec: the voltage-range classifier of the external
`iot_button` ADC-button driver (not part of this repository).  Per the
spec, it returns the logical id of the entry whose inclusive `[min, max]`
range contains the sample, or no match if no range does. -/
def classify : List AdcButtonRange → Nat → Option BspButton
  | [], _ => none
  | r :: rest, v => if inRange r v then some r.button_index else classify rest v

/-- Two entries' ranges do not overlap. -/
def rangesDisjoint (a b : AdcButtonRange) : Prop :=
  b.min > a.max ∨ a.min > b.max

instance (a b : AdcButtonRange) : Decidable (rangesDisjoint a b) := by
  unfold rangesDisjoint; infer_instance

/-- On a table of pairwise non-overlapping ranges, the classifier returns
id `i` exactly when some entry with index `i` contains the sample. -/
theorem classify_eq_some_iff (t : List AdcButtonRange)
    (hd : t.Pairwise rangesDisjoint) (v : Nat) (i : BspButton) :
    classify t v = some i ↔
      ∃ r, r ∈ t ∧ r.button_index = i ∧ r.min ≤ v ∧ v ≤ r.max := by
  induction t with
  | nil => simp [classify]
  | cons r rest ih =>
    rcases List.pairwise_cons.mp hd with ⟨hr, hrest⟩
    by_cases hm : inRange r v
    · have hminmax : r.min ≤ v ∧ v ≤ r.max := by
        simpa [inRange, Bool.and_eq_true] using hm
      constructor
      · intro h
        refine ⟨r, List.mem_cons_self r rest, ?_, hminmax.1, hminmax.2⟩
        simpa [classify, hm] using h
      · rintro ⟨q, hq, hqi, hq1, hq2⟩
        rcases List.mem_cons.mp hq with rfl | hq
        · simpa [classify, hm] using hqi
        · exact absurd (hr q hq) (by
            unfold rangesDisjoint
            push_neg
            exact ⟨le_trans hq1 hminmax.2, le_trans hminmax.1 hq2⟩)
    · have hnot : ¬ (r.min ≤ v ∧ v ≤ r.max) := by
        simpa [inRange, Bool.and_eq_true] using hm
      rw [show classify (r :: rest) v = classify rest v by simp [classify, hm]]
      rw [ih hrest]
      constructor
      · rintro ⟨q, hq, h⟩; exact ⟨q, List.mem_cons_of_mem r hq, h⟩
      · rintro ⟨q, hq, hqi, h1, h2⟩
        rcases List.mem_cons.mp hq with rfl | hq
        · exact absurd ⟨h1, h2⟩ hnot
        · exact ⟨q, hq, hqi, h1, h2⟩

/-- The fixed table's ranges are pairwise non-overlapping. -/
theorem bsp_button_config_pairwise : bsp_button_config.Pairwise rangesDisjoint := by
  decide

/-- C3: on the configured table, 2400 mV classifies as REC, 2000 mV as
MODE, and 2200 mV (between the two ranges) as unmatched; in general a
sample `v` classifies as id `i` iff some configured entry with index `i`
satisfies `min ≤ v ≤ max`, and the empty table never matches. -/
theorem c3_classifier (v : Nat) (i : BspButton) :
    classify bsp_button_config 2400 = some BspButton.REC
    ∧ classify bsp_button_config 2000 = some BspButton.MODE
    ∧ classify bsp_button_config 2200 = none
    ∧ (classify bsp_button_config v = some i ↔
        ∃ r, r ∈ bsp_button_config ∧ r.button_index = i ∧ r.min ≤ v ∧ v ≤ r.max)
    ∧ classify [] v = none := by
  refine ⟨by decide, by decide, by decide, ?_, rfl⟩
  exact classify_eq_some_iff bsp_button_config bsp_button_config_pairwise v i

/-- C3 witness: the classifier statement evaluated at the concrete sample
2400 mV and identity REC. -/
theorem c3_classifier_witness :
    classify bsp_button_config 2400 = some BspButton.REC
    ∧ classify bsp_button_config 2000 = some BspButton.MODE
    ∧ classify bsp_button_config 2200 = none
    ∧ (classify bsp_button_config 2400 = some BspButton.REC ↔
        ∃ r, r ∈ bsp_button_config ∧ r.button_index = BspButton.REC
          ∧ r.min ≤ 2400 ∧ 2400 ≤ r.max)
    ∧ classify [] 2400 = none :=
  c3_classifier 2400 BspButton.REC

/-- C4: all six entries of the fixed table use ADC channel 7, and every two
distinct entries have non-overlapping ranges (`min2 > max1` or
`min1 > max2`). -/
theorem c4_ranges_nonoverlap (a b : AdcButtonRange)
    (ha : a ∈ bsp_button_config) (hb : b ∈ bsp_button_config) (hne : a ≠ b) :
    a.adc_channel = 7 ∧ b.adc_channel = 7 ∧ (b.min > a.max ∨ a.min > b.max) := by
  fin_cases ha <;> fin_cases hb <;> first | exact absurd rfl hne | decide

/-- C4 witness: the REC and MODE entries are distinct, both on channel 7,
and their ranges do not overlap. -/
theorem c4_ranges_nonoverlap_witness :
    (⟨7, BspButton.REC, 2310, 2510⟩ : AdcButtonRange).adc_channel = 7
    ∧ (⟨7, BspButton.MODE, 1880, 2080⟩ : AdcButtonRange).adc_channel = 7
    ∧ ((⟨7, BspButton.MODE, 1880, 2080⟩ : AdcButtonRange).min >
        (⟨7, BspButton.REC, 2310, 2510⟩ : AdcButtonRange).max
      ∨ (⟨7, BspButton.REC, 2310, 2510⟩ : AdcButtonRange).min >
        (⟨7, BspButton.MODE, 1880, 2080⟩ : AdcButtonRange).max) :=
  c4_ranges_nonoverlap ⟨7, BspButton.REC, 2310, 2510⟩ ⟨7, BspButton.MODE, 1880, 2080⟩
    (by decide) (by decide) (by decide)

/-!
## `bsp_iot_button_create`

The caller's array and count pointer are modelled explicitly: the array as
a memory map `Nat → Option Nat` (a cell holds the stored handle, `none`
standing for `NULL`), nullness of the array pointer as a separate flag, and
the count pointer as `Option Int` (`none` = null pointer).  The external
`iot_button_create` results, per table index, form the environment; the
ESP-IDF-5 `bsp_adc_initialize` result as well.  The function returns
(result, array memory, count cell, actions performed).
-/

/-- Results of the external driver calls made by `bsp_iot_button_create`. -/
structure ButtonEnv where
  bsp_adc_init_ret : Int
  iot_button_create : Nat → Option Nat

/-- Driver actions performed by `bsp_iot_button_create`. -/
inductive BtnAction where
  | adc_init : BtnAction
  | create (i : Nat) : BtnAction
deriving DecidableEq, Repr

/-- The `for` loop of `bsp_iot_button_create`: at index `i` store
`iot_button_create(&bsp_button_config[i])` into the array; on `NULL` set
`ret = ESP_FAIL` and break; otherwise increment `*btn_cnt` when the pointer
is non-null.  `rem` is the number of remaining iterations.  Returns
(result, array memory, count cell, created indices). -/
def buttonLoop (create : Nat → Option Nat) :
    Nat → Nat → (Nat → Option Nat) → Option Int →
      Int × (Nat → Option Nat) × Option Int × List Nat
  | 0, _, arr, cnt => (ESP_OK, arr, cnt, [])
  | rem + 1, i, arr, cnt =>
    let h := create i
    let arr1 := fun j => if j = i then h else arr j
    match h with
    | none => (ESP_FAIL, arr1, cnt, [i])
    | some _ =>
      let out := buttonLoop create rem (i + 1) arr1 (cnt.map (fun c => c + 1))
      (out.1, out.2.1, out.2.2.1, i :: out.2.2.2)

/-- `bsp_iot_button_create`: reject a capacity below `BSP_BUTTON_NUM` or a
null array with `ESP_ERR_INVALID_ARG` before anything else; then initialize
the ADC (`BSP_ERROR_CHECK_RETURN_NULL` — note that `return NULL` in an
`esp_err_t` function yields `0 = ESP_OK`), zero `*btn_cnt` when non-null,
and run the creation loop over all `BSP_BUTTON_NUM` table entries. -/
def bsp_iot_button_create (env : ButtonEnv) (arr_is_null : Bool)
    (arr : Nat → Option Nat) (cnt : Option Int) (btn_array_size : Int) :
    Int × (Nat → Option Nat) × Option Int × List BtnAction :=
  if btn_array_size < (BSP_BUTTON_NUM : Int) ∨ arr_is_null then
    (ESP_ERR_INVALID_ARG, arr, cnt, [])
  else if env.bsp_adc_init_ret ≠ ESP_OK then
    (ESP_OK, arr, cnt, [BtnAction.adc_init])
  else
    let out := buttonLoop env.iot_button_create BSP_BUTTON_NUM 0 arr
      (cnt.map (fun _ => 0))
    (out.1, out.2.1, out.2.2.1, BtnAction.adc_init :: out.2.2.2.map BtnAction.create)

/-- C5: with a capacity below the fixed button count (6) or a null array
pointer, `bsp_iot_button_create` returns `ESP_ERR_INVALID_ARG` having
performed no driver or ADC action and leaving the array and count cells
untouched. -/
theorem c5_button_create_arg_check (env : ButtonEnv) (arr_is_null : Bool)
    (arr : Nat → Option Nat) (cnt : Option Int) (btn_array_size : Int)
    (h : btn_array_size < 6 ∨ arr_is_null = true) :
    bsp_iot_button_create env arr_is_null arr cnt btn_array_size
      = (ESP_ERR_INVALID_ARG, arr, cnt, []) := by
  unfold bsp_iot_button_create
  rcases h with h | h
  · rw [if_pos (Or.inl (by simpa [BSP_BUTTON_NUM] using h))]
  · rw [if_pos (Or.inr (by simp [h]))]

/-- C5 witness: capacity 3 against the fixed count 6 is rejected with no
action taken. -/
theorem c5_button_create_arg_check_witness :
    bsp_iot_button_create ⟨0, fun _ => none⟩ false (fun _ => none) (some 0) 3
      = (ESP_ERR_INVALID_ARG, fun _ => none, some 0, []) :=
  c5_button_create_arg_check ⟨0, fun _ => none⟩ false (fun _ => none) (some 0) 3
    (Or.inl (by decide))

/-- Behaviour of the creation loop when the first failing index is `fail`:
every index from `i` up to `fail` is attempted, successful handles stay
stored, cell `fail` is overwritten with `NULL`, later cells are untouched,
and the count has been incremented once per success. -/
theorem buttonLoop_first_fail (create : Nat → Option Nat) :
    ∀ (rem i fail : Nat) (arr : Nat → Option Nat) (c : Int),
    i ≤ fail → fail < i + rem →
    create fail = none →
    (∀ j, i ≤ j → j < fail → create j ≠ none) →
    (buttonLoop create rem i arr (some c)).1 = ESP_FAIL
    ∧ (buttonLoop create rem i arr (some c)).2.1
        = (fun j => if j = fail then none
            else if i ≤ j ∧ j < fail then create j else arr j)
    ∧ (buttonLoop create rem i arr (some c)).2.2.1 = some (c + (fail - i : Nat))
    ∧ (buttonLoop create rem i arr (some c)).2.2.2 = List.range' i (fail - i + 1) := by
  intro rem
  induction rem with
  | zero => intro i fail arr c h1 h2; omega
  | succ rem ih =>
    intro i fail arr c h1 h2 hfail hprev
    by_cases hif : fail = i
    · subst hif
      refine ⟨by simp [buttonLoop, hfail], ?_, by simp [buttonLoop, hfail],
        by simp [buttonLoop, hfail, List.range'_one]⟩
      simp only [buttonLoop, hfail]
      funext j
      by_cases hj : j = fail
      · simp [hj]
      · rw [if_neg hj, if_neg hj, if_neg (show ¬ (fail ≤ j ∧ j < fail) by omega)]
    · have hlt : i < fail := lt_of_le_of_ne h1 (fun e => hif e.symm)
      obtain ⟨hi, hhi⟩ := Option.ne_none_iff_exists'.mp (hprev i le_rfl hlt)
      obtain ⟨e1, e2, e3, e4⟩ := ih (i + 1) fail
        (fun j => if j = i then some hi else arr j) (c + 1)
        (by omega) (by omega) hfail (fun j hj1 hj2 => hprev j (by omega) hj2)
      refine ⟨?_, ?_, ?_, ?_⟩
      · simp only [buttonLoop, hhi]
        exact e1
      · simp only [buttonLoop, hhi, Option.map_some']
        rw [e2]
        funext j
        by_cases hjf : j = fail
        · simp [hjf]
        · rw [if_neg hjf, if_neg hjf]
          by_cases hjmid : i + 1 ≤ j ∧ j < fail
          · rw [if_pos hjmid, if_pos (show i ≤ j ∧ j < fail by omega)]
          · by_cases hji : j = i
            · rw [if_neg hjmid, if_pos hji,
                if_pos (show i ≤ j ∧ j < fail by omega), hji]
              exact hhi.symm
            · rw [if_neg hjmid, if_neg hji,
                if_neg (show ¬ (i ≤ j ∧ j < fail) by omega)]
      · simp only [buttonLoop, hhi, Option.map_some']
        rw [e3]
        refine congrArg some ?_
        have h3 : (fail - i : Nat) = (fail - (i + 1) : Nat) + 1 := by omega
        rw [h3]
        push_cast
        omega
      · simp only [buttonLoop, hhi, Option.map_some']
        rw [e4]
        have h5 : (fail - i : Nat) + 1 = ((fail - (i + 1) : Nat) + 1) + 1 := by omega
        rw [h5, List.range'_succ i ((fail - (i + 1) : Nat) + 1) 1]

/-- C9: if `iot_button_create` first fails at table index `fail` (array and
count pointers valid, ADC init successful), `bsp_iot_button_create` returns
`ESP_FAIL`, `*btn_cnt` holds exactly `fail` (the number of buttons
created), cells `0..fail-1` keep their successfully created handles, cell
`fail` holds `NULL`, every later cell is untouched, and the only actions
performed are the ADC init and the creations of indices `0..fail`. -/
theorem c9_button_create_partial_fail (env : ButtonEnv)
    (arr : Nat → Option Nat) (c0 : Int) (btn_array_size : Int) (fail : Nat)
    (hsize : 6 ≤ btn_array_size) (hadc : env.bsp_adc_init_ret = ESP_OK)
    (hf6 : fail < 6) (hfail : env.iot_button_create fail = none)
    (hprev : ∀ j, j < fail → env.iot_button_create j ≠ none) :
    bsp_iot_button_create env false arr (some c0) btn_array_size =
      (ESP_FAIL,
        (fun j => if j = fail then none
          else if j < fail then env.iot_button_create j else arr j),
        some (fail : Int),
        BtnAction.adc_init :: (List.range (fail + 1)).map BtnAction.create) := by
  obtain ⟨e1, e2, e3, e4⟩ := buttonLoop_first_fail env.iot_button_create
    BSP_BUTTON_NUM 0 fail arr 0 (Nat.zero_le fail)
    (by simp only [BSP_BUTTON_NUM]; omega) hfail (fun j _ hj => hprev j hj)
  simp only [bsp_iot_button_create]
  rw [if_neg (by
    push_neg
    exact ⟨by simp only [BSP_BUTTON_NUM]; push_cast; omega, by simp⟩)]
  rw [if_neg (by simp [hadc])]
  simp only [Option.map_some']
  rw [e1, e2, e3, e4]
  simp [List.range_eq_range']

/-- C9 witness: creations succeed at indices 0 and 1 and fail at index 2. -/
theorem c9_button_create_partial_fail_witness :
    bsp_iot_button_create
        ⟨0, fun j => if j = 0 then some 10 else if j = 1 then some 11 else none⟩
        false (fun _ => none) (some 5) 6 =
      (ESP_FAIL,
        (fun j => if j = 2 then none
          else if j < 2 then
            (if j = 0 then some 10 else if j = 1 then some 11 else none)
          else none),
        some (2 : Int),
        BtnAction.adc_init :: (List.range 3).map BtnAction.create) :=
  c9_button_create_partial_fail
    ⟨0, fun j => if j = 0 then some 10 else if j = 1 then some 11 else none⟩
    (fun _ => none) 5 6 2 (by decide) rfl (by decide) (by decide)
    (by intro j hj; interval_cases j <;> simp)

/-!
## `bsp_led_indicator_create`

Same memory model as for the buttons: the LED array as a map
`Nat → Option Nat`, array-pointer nullness as a flag, the count pointer as
`Option Int`.  The external `led_indicator_create` result (for the fixed
`bsp_leds_config`) is the environment.
-/

/-- `bsp_led_indicator_create`: reject a null array with
`ESP_ERR_INVALID_ARG`; otherwise store `led_indicator_create(&bsp_leds_config)`
into cell 0 and return `ESP_FAIL` iff that handle is `NULL`.  The
`led_array_size` parameter is accepted but never read, and `led_cnt` is
never written. -/
def bsp_led_indicator_create (led_indicator_create_ret : Option Nat)
    (arr_is_null : Bool) (arr : Nat → Option Nat) (cnt : Option Int)
    (led_array_size : Int) : Int × (Nat → Option Nat) × Option Int :=
  if arr_is_null then (ESP_ERR_INVALID_ARG, arr, cnt)
  else
    match led_indicator_create_ret with
    | none => (ESP_FAIL, fun j => if j = 0 then none else arr j, cnt)
    | some h => (ESP_OK, fun j => if j = 0 then some h else arr j, cnt)

/-- C10: `bsp_led_indicator_create` is independent of `led_array_size`
(capacity 0 raises no argument error), never writes the count cell, writes
only cell 0 of the array (exactly when the pointer is non-null), and
returns `ESP_ERR_INVALID_ARG` exactly when the array pointer is null. -/
theorem c10_led_indicator_frame (ret : Option Nat) (arr_is_null : Bool)
    (arr : Nat → Option Nat) (cnt : Option Int) (sz sz' : Int) :
    bsp_led_indicator_create ret arr_is_null arr cnt sz
      = bsp_led_indicator_create ret arr_is_null arr cnt sz'
    ∧ (bsp_led_indicator_create ret arr_is_null arr cnt sz).2.2 = cnt
    ∧ (arr_is_null = false →
        (bsp_led_indicator_create ret arr_is_null arr cnt sz).2.1
          = fun j => if j = 0 then ret else arr j)
    ∧ (arr_is_null = true →
        (bsp_led_indicator_create ret arr_is_null arr cnt sz).2.1 = arr)
    ∧ ((bsp_led_indicator_create ret arr_is_null arr cnt sz).1
        = ESP_ERR_INVALID_ARG ↔ arr_is_null = true) := by
  unfold bsp_led_indicator_create
  rcases arr_is_null with _ | _
  · cases ret <;> simp [ESP_FAIL, ESP_OK, ESP_ERR_INVALID_ARG]
  · simp

/-- C10 witness: a non-null array with capacity 0 and a successful driver
creation. -/
theorem c10_led_indicator_frame_witness :
    bsp_led_indicator_create (some 4) false (fun _ => none) (some 7) 0
      = bsp_led_indicator_create (some 4) false (fun _ => none) (some 7) 9
    ∧ (bsp_led_indicator_create (some 4) false (fun _ => none) (some 7) 0).2.2
        = some 7
    ∧ (false = false →
        (bsp_led_indicator_create (some 4) false (fun _ => none) (some 7) 0).2.1
          = fun j => if j = 0 then some 4 else (fun _ => (none : Option Nat)) j)
    ∧ (false = true →
        (bsp_led_indicator_create (some 4) false (fun _ => none) (some 7) 0).2.1
          = fun _ => none)
    ∧ ((bsp_led_indicator_create (some 4) false (fun _ => none) (some 7) 0).1
        = ESP_ERR_INVALID_ARG ↔ false = true) :=
  c10_led_indicator_frame (some 4) false (fun _ => none) (some 7) 0 9

/-!
## Audio endpoint composers

`bsp_audio_codec_speaker_init` and `bsp_audio_codec_microphone_init` layer
external factories; all of them are modelled in `AudioEnv`.  Handles are
`Nat`, `none` standing for `NULL`.  The configuration records passed to
`es8311_codec_new` / `es7210_codec_new` / `esp_codec_dev_new` are embedded
in full, and every factory call is recorded in the action trace together
with the configuration it received, so "constructed with exactly this
configuration" and "no later construction step is executed" are statements
about the trace.  `float` gains are embedded as the rational values of the
source literals.
-/

/-- External-header constant: the ES8311 default control address.  Only its
identity matters. -/
def ES8311_CODEC_DEFAULT_ADDR : Nat := 0x18

/-- External-header constant: the ES7210 default control address.  Only its
identity matters. -/
def ES7210_CODEC_DEFAULT_ADDR : Nat := 0x40

/-- External-header constants: the ES7210 microphone-selection bits. -/
def ES7120_SEL_MIC1 : Nat := 1

/-- See `ES7120_SEL_MIC1`. -/
def ES7120_SEL_MIC2 : Nat := 2

/-- `esp_codec_dev_work_mode_t`. -/
inductive CodecWorkMode where
  | modeNone : CodecWorkMode
  | adc : CodecWorkMode
  | dac : CodecWorkMode
  | both : CodecWorkMode
  | line : CodecWorkMode
deriving DecidableEq, Repr

/-- `esp_codec_dev_hw_gain_t` (source literals `5.0` and `3.3` as exact
rationals). -/
structure HwGain where
  pa_voltage : Rat
  codec_dac_voltage : Rat
deriving DecidableEq, Repr

/-- `es8311_codec_cfg_t` as filled by the speaker composer. -/
structure Es8311Cfg where
  ctrl_if : Nat
  gpio_if : Option Nat
  codec_mode : CodecWorkMode
  pa_pin : Int
  pa_reverted : Bool
  master_mode : Bool
  use_mclk : Bool
  digital_mic : Bool
  invert_mclk : Bool
  invert_sclk : Bool
  hw_gain : HwGain
deriving DecidableEq, Repr

/-- `es7210_codec_cfg_t` as filled by the microphone composer. -/
structure Es7210Cfg where
  ctrl_if : Nat
  mic_selected : Nat
deriving DecidableEq, Repr

/-- `esp_codec_dev_type_t` tags. -/
inductive DevType where
  | out : DevType
  | input : DevType
deriving DecidableEq, Repr

/-- `esp_codec_dev_cfg_t` (the shared data interface is implicit: it is the
role's streaming interface, asserted non-null before this point). -/
structure EspCodecDevCfg where
  dev_type : DevType
  codec_if : Nat
deriving DecidableEq, Repr

/-- Construction steps performed by the audio composers, with the
configurations handed to the factories. -/
inductive AudioStep where
  | get_itf_spk : AudioStep
  | get_itf_mic : AudioStep
  | i2c_init : AudioStep
  | audio_init : AudioStep
  | new_gpio : AudioStep
  | new_i2c_ctrl (port : Nat) (addr : Nat) : AudioStep
  | es8311_new (cfg : Es8311Cfg) : AudioStep
  | es7210_new (cfg : Es7210Cfg) : AudioStep
  | codec_dev_new (cfg : EspCodecDevCfg) : AudioStep
  | assert_abort : AudioStep
deriving DecidableEq, Repr

/-- Results returned by the external audio collaborators. -/
structure AudioEnv where
  itf_spk_pre : Option Unit
  itf_spk_post : Option Unit
  itf_mic_pre : Option Unit
  itf_mic_post : Option Unit
  bsp_audio_init_ret : Int
  audio_codec_new_gpio_ret : Option Nat
  spk_i2c_ctrl : Option Nat
  mic_i2c_ctrl : Option Nat
  es8311_codec_new : Es8311Cfg → Option Nat
  es7210_codec_new : Es7210Cfg → Option Nat
  esp_codec_dev_new : EspCodecDevCfg → Option Nat

/-- The outcome of a composer: an ordinary return (possibly `NULL`), or a
program abort through the `assert`. -/
inductive CodecInitOutcome where
  | ret (h : Option Nat) : CodecInitOutcome
  | panic : CodecInitOutcome
deriving DecidableEq, Repr

/-- The fixed ES8311 configuration built by the speaker composer. -/
def speaker_es8311_cfg (ctrl : Nat) (gpio : Option Nat) : Es8311Cfg :=
  { ctrl_if := ctrl
    gpio_if := gpio
    codec_mode := CodecWorkMode.dac
    pa_pin := BSP_POWER_AMP_IO
    pa_reverted := false
    master_mode := false
    use_mclk := false
    digital_mic := false
    invert_mclk := false
    invert_sclk := false
    hw_gain := { pa_voltage := 5, codec_dac_voltage := 33 / 10 } }

/-- The ES7210 configuration built by the microphone composer. -/
def mic_es7210_cfg (ctrl : Nat) : Es7210Cfg :=
  { ctrl_if := ctrl, mic_selected := ES7120_SEL_MIC1 ||| ES7120_SEL_MIC2 }

/-- The part of `bsp_audio_codec_speaker_init` after the data interface is
known to exist: create the GPIO interface (not null-checked by the source),
the I2C control interface (`BSP_NULL_CHECK` returns `NULL`), the ES8311
driver (`BSP_NULL_CHECK`), then `esp_codec_dev_new`, whose result is
returned unchecked. -/
def speaker_compose (aenv : AudioEnv) (s : BspState) (t0 : List AudioStep) :
    CodecInitOutcome × BspState × List AudioStep :=
  let gpio := aenv.audio_codec_new_gpio_ret
  let t1 := t0 ++ [AudioStep.new_gpio,
    AudioStep.new_i2c_ctrl BSP_I2C_NUM ES8311_CODEC_DEFAULT_ADDR]
  match aenv.spk_i2c_ctrl with
  | none => (CodecInitOutcome.ret none, s, t1)
  | some ctrl =>
    let cfg := speaker_es8311_cfg ctrl gpio
    let t2 := t1 ++ [AudioStep.es8311_new cfg]
    match aenv.es8311_codec_new cfg with
    | none => (CodecInitOutcome.ret none, s, t2)
    | some codec =>
      let dcfg : EspCodecDevCfg := { dev_type := DevType.out, codec_if := codec }
      (CodecInitOutcome.ret (aenv.esp_codec_dev_new dcfg), s,
        t2 ++ [AudioStep.codec_dev_new dcfg])

/-- `bsp_audio_codec_speaker_init`: fetch the shared speaker data
interface; when absent, run `bsp_i2c_init` and `bsp_audio_init` (each via
`BSP_ERROR_CHECK_RETURN_NULL`) and re-fetch; `assert` it is present; then
compose the codec layers. -/
def bsp_audio_codec_speaker_init (ienv : I2CEnv) (aenv : AudioEnv)
    (s : BspState) : CodecInitOutcome × BspState × List AudioStep :=
  match aenv.itf_spk_pre with
  | some _ => speaker_compose aenv s [AudioStep.get_itf_spk]
  | none =>
    let r := bsp_i2c_init ienv s
    if r.1 ≠ ESP_OK then
      (CodecInitOutcome.ret none, r.2.1, [AudioStep.get_itf_spk, AudioStep.i2c_init])
    else if aenv.bsp_audio_init_ret ≠ ESP_OK then
      (CodecInitOutcome.ret none, r.2.1,
        [AudioStep.get_itf_spk, AudioStep.i2c_init, AudioStep.audio_init])
    else
      match aenv.itf_spk_post with
      | none => (CodecInitOutcome.panic, r.2.1,
          [AudioStep.get_itf_spk, AudioStep.i2c_init, AudioStep.audio_init,
            AudioStep.get_itf_spk, AudioStep.assert_abort])
      | some _ => speaker_compose aenv r.2.1
          [AudioStep.get_itf_spk, AudioStep.i2c_init, AudioStep.audio_init,
            AudioStep.get_itf_spk]

/-- The part of `bsp_audio_codec_microphone_init` after the data interface
is known to exist: create the I2C control interface (`BSP_NULL_CHECK`), the
ES7210 driver (`BSP_NULL_CHECK`), then `esp_codec_dev_new`, returned
unchecked. -/
def mic_compose (aenv : AudioEnv) (s : BspState) (t0 : List AudioStep) :
    CodecInitOutcome × BspState × List AudioStep :=
  let t1 := t0 ++ [AudioStep.new_i2c_ctrl BSP_I2C_NUM ES7210_CODEC_DEFAULT_ADDR]
  match aenv.mic_i2c_ctrl with
  | none => (CodecInitOutcome.ret none, s, t1)
  | some ctrl =>
    let cfg := mic_es7210_cfg ctrl
    let t2 := t1 ++ [AudioStep.es7210_new cfg]
    match aenv.es7210_codec_new cfg with
    | none => (CodecInitOutcome.ret none, s, t2)
    | some codec =>
      let dcfg : EspCodecDevCfg := { dev_type := DevType.input, codec_if := codec }
      (CodecInitOutcome.ret (aenv.esp_codec_dev_new dcfg), s,
        t2 ++ [AudioStep.codec_dev_new dcfg])

/-- `bsp_audio_codec_microphone_init`, structured like the speaker
composer. -/
def bsp_audio_codec_microphone_init (ienv : I2CEnv) (aenv : AudioEnv)
    (s : BspState) : CodecInitOutcome × BspState × List AudioStep :=
  match aenv.itf_mic_pre with
  | some _ => mic_compose aenv s [AudioStep.get_itf_mic]
  | none =>
    let r := bsp_i2c_init ienv s
    if r.1 ≠ ESP_OK then
      (CodecInitOutcome.ret none, r.2.1, [AudioStep.get_itf_mic, AudioStep.i2c_init])
    else if aenv.bsp_audio_init_ret ≠ ESP_OK then
      (CodecInitOutcome.ret none, r.2.1,
        [AudioStep.get_itf_mic, AudioStep.i2c_init, AudioStep.audio_init])
    else
      match aenv.itf_mic_post with
      | none => (CodecInitOutcome.panic, r.2.1,
          [AudioStep.get_itf_mic, AudioStep.i2c_init, AudioStep.audio_init,
            AudioStep.get_itf_mic, AudioStep.assert_abort])
      | some _ => mic_compose aenv r.2.1
          [AudioStep.get_itf_mic, AudioStep.i2c_init, AudioStep.audio_init,
            AudioStep.get_itf_mic]

/-- Whether a trace contains an ES8311 driver-creation step. -/
def hasEs8311New : List AudioStep → Bool
  | [] => false
  | AudioStep.es8311_new _ :: _ => true
  | _ :: rest => hasEs8311New rest

/-- Whether a trace contains an ES7210 driver-creation step. -/
def hasEs7210New : List AudioStep → Bool
  | [] => false
  | AudioStep.es7210_new _ :: _ => true
  | _ :: rest => hasEs7210New rest

/-- Whether a trace contains an `esp_codec_dev_new` step. -/
def hasCodecDevNew : List AudioStep → Bool
  | [] => false
  | AudioStep.codec_dev_new _ :: _ => true
  | _ :: rest => hasCodecDevNew rest

/-- `hasEs8311New` distributes over append. -/
theorem hasEs8311New_append (t1 t2 : List AudioStep) :
    hasEs8311New (t1 ++ t2) = (hasEs8311New t1 || hasEs8311New t2) := by
  induction t1 with
  | nil => simp [hasEs8311New]
  | cons a rest ih => cases a <;> simp [hasEs8311New, ih]

/-- `hasEs7210New` distributes over append. -/
theorem hasEs7210New_append (t1 t2 : List AudioStep) :
    hasEs7210New (t1 ++ t2) = (hasEs7210New t1 || hasEs7210New t2) := by
  induction t1 with
  | nil => simp [hasEs7210New]
  | cons a rest ih => cases a <;> simp [hasEs7210New, ih]

/-- `hasCodecDevNew` distributes over append. -/
theorem hasCodecDevNew_append (t1 t2 : List AudioStep) :
    hasCodecDevNew (t1 ++ t2) = (hasCodecDevNew t1 || hasCodecDevNew t2) := by
  induction t1 with
  | nil => simp [hasCodecDevNew]
  | cons a rest ih => cases a <;> simp [hasCodecDevNew, ih]

/-- A trace containing an ES8311 creation step has `hasEs8311New`. -/
theorem hasEs8311New_of_mem {cfg : Es8311Cfg} {t : List AudioStep}
    (h : AudioStep.es8311_new cfg ∈ t) : hasEs8311New t = true := by
  induction t with
  | nil => simp at h
  | cons a rest ih =>
    rcases List.mem_cons.mp h with h1 | h1
    · subst h1; rfl
    · have hr := ih h1
      cases a <;> simp [hasEs8311New, hr]

/-- A trace containing an ES7210 creation step has `hasEs7210New`. -/
theorem hasEs7210New_of_mem {cfg : Es7210Cfg} {t : List AudioStep}
    (h : AudioStep.es7210_new cfg ∈ t) : hasEs7210New t = true := by
  induction t with
  | nil => simp at h
  | cons a rest ih =>
    rcases List.mem_cons.mp h with h1 | h1
    · subst h1; rfl
    · have hr := ih h1
      cases a <;> simp [hasEs7210New, hr]

/-- Every run of `bsp_audio_codec_speaker_init` either returns early
(`NULL` after a failed bus/audio init, or the `assert` abort) with a
factory-free trace, or reaches `speaker_compose` with a prefix trace that
contains no factory step. -/
theorem speaker_init_shape (ienv : I2CEnv) (aenv : AudioEnv) (s : BspState) :
    bsp_audio_codec_speaker_init ienv aenv s
        = (CodecInitOutcome.ret none, (bsp_i2c_init ienv s).2.1,
            [AudioStep.get_itf_spk, AudioStep.i2c_init])
    ∨ bsp_audio_codec_speaker_init ienv aenv s
        = (CodecInitOutcome.ret none, (bsp_i2c_init ienv s).2.1,
            [AudioStep.get_itf_spk, AudioStep.i2c_init, AudioStep.audio_init])
    ∨ bsp_audio_codec_speaker_init ienv aenv s
        = (CodecInitOutcome.panic, (bsp_i2c_init ienv s).2.1,
            [AudioStep.get_itf_spk, AudioStep.i2c_init, AudioStep.audio_init,
              AudioStep.get_itf_spk, AudioStep.assert_abort])
    ∨ (∃ t0, (t0 = [AudioStep.get_itf_spk]
          ∨ t0 = [AudioStep.get_itf_spk, AudioStep.i2c_init, AudioStep.audio_init,
              AudioStep.get_itf_spk])
        ∧ ∃ s1, bsp_audio_codec_speaker_init ienv aenv s = speaker_compose aenv s1 t0) := by
  unfold bsp_audio_codec_speaker_init
  rcases hpre : aenv.itf_spk_pre with _ | u
  · by_cases h1 : (bsp_i2c_init ienv s).1 ≠ ESP_OK
    · left; simp [h1]
    · by_cases h2 : aenv.bsp_audio_init_ret ≠ ESP_OK
      · right; left; simp [h1, h2]
      · rcases h3 : aenv.itf_spk_post with _ | v
        · right; right; left; simp [h1, h2, h3]
        · right; right; right
          exact ⟨_, Or.inr rfl, (bsp_i2c_init ienv s).2.1, by simp [h1, h2, h3]⟩
  · right; right; right
    exact ⟨_, Or.inl rfl, s, rfl⟩

/-- Every run of `bsp_audio_codec_microphone_init` either returns early
with a factory-free trace, or reaches `mic_compose` with a factory-free
prefix trace. -/
theorem mic_init_shape (ienv : I2CEnv) (aenv : AudioEnv) (s : BspState) :
    bsp_audio_codec_microphone_init ienv aenv s
        = (CodecInitOutcome.ret none, (bsp_i2c_init ienv s).2.1,
            [AudioStep.get_itf_mic, AudioStep.i2c_init])
    ∨ bsp_audio_codec_microphone_init ienv aenv s
        = (CodecInitOutcome.ret none, (bsp_i2c_init ienv s).2.1,
            [AudioStep.get_itf_mic, AudioStep.i2c_init, AudioStep.audio_init])
    ∨ bsp_audio_codec_microphone_init ienv aenv s
        = (CodecInitOutcome.panic, (bsp_i2c_init ienv s).2.1,
            [AudioStep.get_itf_mic, AudioStep.i2c_init, AudioStep.audio_init,
              AudioStep.get_itf_mic, AudioStep.assert_abort])
    ∨ (∃ t0, (t0 = [AudioStep.get_itf_mic]
          ∨ t0 = [AudioStep.get_itf_mic, AudioStep.i2c_init, AudioStep.audio_init,
              AudioStep.get_itf_mic])
        ∧ ∃ s1, bsp_audio_codec_microphone_init ienv aenv s = mic_compose aenv s1 t0) := by
  unfold bsp_audio_codec_microphone_init
  rcases hpre : aenv.itf_mic_pre with _ | u
  · by_cases h1 : (bsp_i2c_init ienv s).1 ≠ ESP_OK
    · left; simp [h1]
    · by_cases h2 : aenv.bsp_audio_init_ret ≠ ESP_OK
      · right; left; simp [h1, h2]
      · rcases h3 : aenv.itf_mic_post with _ | v
        · right; right; left; simp [h1, h2, h3]
        · right; right; right
          exact ⟨_, Or.inr rfl, (bsp_i2c_init ienv s).2.1, by simp [h1, h2, h3]⟩
  · right; right; right
    exact ⟨_, Or.inl rfl, s, rfl⟩

/-- If the speaker's I2C control interface comes back `NULL`,
`speaker_compose` returns `NULL` and performs no ES8311 or
`esp_codec_dev_new` step. -/
theorem speaker_compose_ctrl_null (aenv : AudioEnv) (s : BspState)
    (t0 : List AudioStep) (hc : aenv.spk_i2c_ctrl = none)
    (h8 : hasEs8311New t0 = false) (hd : hasCodecDevNew t0 = false) :
    (speaker_compose aenv s t0).1 = CodecInitOutcome.ret none
    ∧ hasEs8311New (speaker_compose aenv s t0).2.2 = false
    ∧ hasCodecDevNew (speaker_compose aenv s t0).2.2 = false := by
  refine ⟨?_, ?_, ?_⟩ <;>
    simp [speaker_compose, hc, hasEs8311New_append, hasCodecDevNew_append,
      h8, hd, hasEs8311New, hasCodecDevNew]

/-- If an ES8311 creation step of `speaker_compose` returned `NULL`, the
composition returns `NULL` and performs no `esp_codec_dev_new` step. -/
theorem speaker_compose_es8311_null (aenv : AudioEnv) (s : BspState)
    (t0 : List AudioStep) (cfg : Es8311Cfg)
    (hmem : AudioStep.es8311_new cfg ∈ (speaker_compose aenv s t0).2.2)
    (hnone : aenv.es8311_codec_new cfg = none)
    (h8 : hasEs8311New t0 = false) (hd : hasCodecDevNew t0 = false) :
    (speaker_compose aenv s t0).1 = CodecInitOutcome.ret none
    ∧ hasCodecDevNew (speaker_compose aenv s t0).2.2 = false := by
  rcases hc : aenv.spk_i2c_ctrl with _ | ctrl
  · simp only [speaker_compose, hc] at hmem
    simp at hmem
    exact absurd (hasEs8311New_of_mem hmem)
      (by simp [hasEs8311New_append, hasEs8311New, h8])
  · rcases h8n : aenv.es8311_codec_new (speaker_es8311_cfg ctrl
        aenv.audio_codec_new_gpio_ret) with _ | codec
    · refine ⟨by simp [speaker_compose, hc, h8n], ?_⟩
      simp [speaker_compose, hc, h8n, hasCodecDevNew_append, hasCodecDevNew, hd]
    · simp only [speaker_compose, hc, h8n] at hmem
      simp at hmem
      rcases hmem with hmem | he
      · exact absurd (hasEs8311New_of_mem hmem)
          (by simp [hasEs8311New_append, hasEs8311New, h8])
      · subst he
        simp [hnone] at h8n

/-- Every ES8311 configuration handed to the factory by `speaker_compose`
is the fixed speaker configuration. -/
theorem speaker_compose_es8311_cfg (aenv : AudioEnv) (s : BspState)
    (t0 : List AudioStep) (cfg : Es8311Cfg)
    (h8 : hasEs8311New t0 = false)
    (hmem : AudioStep.es8311_new cfg ∈ (speaker_compose aenv s t0).2.2) :
    ∃ ctrl, cfg = speaker_es8311_cfg ctrl aenv.audio_codec_new_gpio_ret := by
  rcases hc : aenv.spk_i2c_ctrl with _ | ctrl
  · simp only [speaker_compose, hc] at hmem
    simp at hmem
    exact absurd (hasEs8311New_of_mem hmem)
      (by simp [hasEs8311New_append, hasEs8311New, h8])
  · rcases h8n : aenv.es8311_codec_new (speaker_es8311_cfg ctrl
        aenv.audio_codec_new_gpio_ret) with _ | codec <;>
      simp only [speaker_compose, hc, h8n] at hmem <;> simp at hmem <;>
      rcases hmem with hmem | he
    · exact absurd (hasEs8311New_of_mem hmem)
        (by simp [hasEs8311New_append, hasEs8311New, h8])
    · exact ⟨ctrl, he⟩
    · exact absurd (hasEs8311New_of_mem hmem)
        (by simp [hasEs8311New_append, hasEs8311New, h8])
    · exact ⟨ctrl, he⟩

/-- If the microphone's I2C control interface comes back `NULL`,
`mic_compose` returns `NULL` and performs no ES7210 or `esp_codec_dev_new`
step. -/
theorem mic_compose_ctrl_null (aenv : AudioEnv) (s : BspState)
    (t0 : List AudioStep) (hc : aenv.mic_i2c_ctrl = none)
    (h7 : hasEs7210New t0 = false) (hd : hasCodecDevNew t0 = false) :
    (mic_compose aenv s t0).1 = CodecInitOutcome.ret none
    ∧ hasEs7210New (mic_compose aenv s t0).2.2 = false
    ∧ hasCodecDevNew (mic_compose aenv s t0).2.2 = false := by
  refine ⟨?_, ?_, ?_⟩ <;>
    simp [mic_compose, hc, hasEs7210New_append, hasCodecDevNew_append,
      h7, hd, hasEs7210New, hasCodecDevNew]

/-- If an ES7210 creation step of `mic_compose` returned `NULL`, the
composition returns `NULL` and performs no `esp_codec_dev_new` step. -/
theorem mic_compose_es7210_null (aenv : AudioEnv) (s : BspState)
    (t0 : List AudioStep) (cfg : Es7210Cfg)
    (hmem : AudioStep.es7210_new cfg ∈ (mic_compose aenv s t0).2.2)
    (hnone : aenv.es7210_codec_new cfg = none)
    (h7 : hasEs7210New t0 = false) (hd : hasCodecDevNew t0 = false) :
    (mic_compose aenv s t0).1 = CodecInitOutcome.ret none
    ∧ hasCodecDevNew (mic_compose aenv s t0).2.2 = false := by
  rcases hc : aenv.mic_i2c_ctrl with _ | ctrl
  · simp only [mic_compose, hc] at hmem
    simp at hmem
    exact absurd (hasEs7210New_of_mem hmem)
      (by simp [hasEs7210New_append, hasEs7210New, h7])
  · rcases h7n : aenv.es7210_codec_new (mic_es7210_cfg ctrl) with _ | codec
    · refine ⟨by simp [mic_compose, hc, h7n], ?_⟩
      simp [mic_compose, hc, h7n, hasCodecDevNew_append, hasCodecDevNew, hd]
    · simp only [mic_compose, hc, h7n] at hmem
      simp at hmem
      rcases hmem with hmem | he
      · exact absurd (hasEs7210New_of_mem hmem)
          (by simp [hasEs7210New_append, hasEs7210New, h7])
      · subst he
        simp [hnone] at h7n

/-- C7: in both audio composers, a construction step that returns a null
handle (the I2C control-interface creation, or the codec driver creation)
aborts the whole composition: the function returns `NULL` and no later
construction step appears in the performed trace. -/
theorem c7_audio_null_aborts (ienv : I2CEnv) (aenv : AudioEnv) (s : BspState) :
    (aenv.spk_i2c_ctrl = none →
      AudioStep.new_i2c_ctrl BSP_I2C_NUM ES8311_CODEC_DEFAULT_ADDR
          ∈ (bsp_audio_codec_speaker_init ienv aenv s).2.2 →
      (bsp_audio_codec_speaker_init ienv aenv s).1 = CodecInitOutcome.ret none
      ∧ hasEs8311New (bsp_audio_codec_speaker_init ienv aenv s).2.2 = false
      ∧ hasCodecDevNew (bsp_audio_codec_speaker_init ienv aenv s).2.2 = false)
    ∧ (∀ cfg : Es8311Cfg,
        AudioStep.es8311_new cfg ∈ (bsp_audio_codec_speaker_init ienv aenv s).2.2 →
        aenv.es8311_codec_new cfg = none →
        (bsp_audio_codec_speaker_init ienv aenv s).1 = CodecInitOutcome.ret none
        ∧ hasCodecDevNew (bsp_audio_codec_speaker_init ienv aenv s).2.2 = false)
    ∧ (aenv.mic_i2c_ctrl = none →
      AudioStep.new_i2c_ctrl BSP_I2C_NUM ES7210_CODEC_DEFAULT_ADDR
          ∈ (bsp_audio_codec_microphone_init ienv aenv s).2.2 →
      (bsp_audio_codec_microphone_init ienv aenv s).1 = CodecInitOutcome.ret none
      ∧ hasEs7210New (bsp_audio_codec_microphone_init ienv aenv s).2.2 = false
      ∧ hasCodecDevNew (bsp_audio_codec_microphone_init ienv aenv s).2.2 = false)
    ∧ (∀ cfg : Es7210Cfg,
        AudioStep.es7210_new cfg ∈ (bsp_audio_codec_microphone_init ienv aenv s).2.2 →
        aenv.es7210_codec_new cfg = none →
        (bsp_audio_codec_microphone_init ienv aenv s).1 = CodecInitOutcome.ret none
        ∧ hasCodecDevNew (bsp_audio_codec_microphone_init ienv aenv s).2.2 = false) := by
  refine ⟨?_, ?_, ?_, ?_⟩
  · intro hc hmem
    rcases speaker_init_shape ienv aenv s with h | h | h | ⟨t0, ht0, s1, h⟩
    · rw [h]; exact ⟨rfl, rfl, rfl⟩
    · rw [h]; exact ⟨rfl, rfl, rfl⟩
    · rw [h] at hmem; simp at hmem
    · rw [h]
      rcases ht0 with rfl | rfl <;>
        exact speaker_compose_ctrl_null aenv s1 _ hc rfl rfl
  · intro cfg hmem hnone
    rcases speaker_init_shape ienv aenv s with h | h | h | ⟨t0, ht0, s1, h⟩
    · rw [h]; exact ⟨rfl, rfl⟩
    · rw [h]; exact ⟨rfl, rfl⟩
    · rw [h] at hmem; simp at hmem
    · rw [h] at hmem ⊢
      rcases ht0 with rfl | rfl <;>
        exact speaker_compose_es8311_null aenv s1 _ cfg hmem hnone rfl rfl
  · intro hc hmem
    rcases mic_init_shape ienv aenv s with h | h | h | ⟨t0, ht0, s1, h⟩
    · rw [h]; exact ⟨rfl, rfl, rfl⟩
    · rw [h]; exact ⟨rfl, rfl, rfl⟩
    · rw [h] at hmem; simp at hmem
    · rw [h]
      rcases ht0 with rfl | rfl <;>
        exact mic_compose_ctrl_null aenv s1 _ hc rfl rfl
  · intro cfg hmem hnone
    rcases mic_init_shape ienv aenv s with h | h | h | ⟨t0, ht0, s1, h⟩
    · rw [h]; exact ⟨rfl, rfl⟩
    · rw [h]; exact ⟨rfl, rfl⟩
    · rw [h] at hmem; simp at hmem
    · rw [h] at hmem ⊢
      rcases ht0 with rfl | rfl <;>
        exact mic_compose_es7210_null aenv s1 _ cfg hmem hnone rfl rfl

/-- Audio environment in which the shared interfaces exist but both I2C
control-interface creations return `NULL` (used as a concrete witness). -/
def audioEnvCtrlNull : AudioEnv :=
  { itf_spk_pre := some ()
    itf_spk_post := none
    itf_mic_pre := some ()
    itf_mic_post := none
    bsp_audio_init_ret := 0
    audio_codec_new_gpio_ret := none
    spk_i2c_ctrl := none
    mic_i2c_ctrl := none
    es8311_codec_new := fun _ => none
    es7210_codec_new := fun _ => none
    esp_codec_dev_new := fun _ => none }

/-- C7 witness: with a null speaker control interface, the speaker composer
returns `NULL` and performs no ES8311 or device-creation step. -/
theorem c7_audio_null_aborts_witness :
    (bsp_audio_codec_speaker_init ⟨0, 0, 0⟩ audioEnvCtrlNull ⟨false⟩).1
        = CodecInitOutcome.ret none
    ∧ hasEs8311New
        (bsp_audio_codec_speaker_init ⟨0, 0, 0⟩ audioEnvCtrlNull ⟨false⟩).2.2 = false
    ∧ hasCodecDevNew
        (bsp_audio_codec_speaker_init ⟨0, 0, 0⟩ audioEnvCtrlNull ⟨false⟩).2.2 = false :=
  (c7_audio_null_aborts ⟨0, 0, 0⟩ audioEnvCtrlNull ⟨false⟩).1 rfl
    (by simp [bsp_audio_codec_speaker_init, audioEnvCtrlNull, speaker_compose])

/-- C8: every ES8311 configuration the speaker composer hands to the codec
factory is the fixed one: DAC work mode, slave (non-master) mode, no MCLK
use, gain pair 5.0 / 3.3, the power-amplifier pin, and all
polarity/invert flags cleared. -/
theorem c8_speaker_codec_cfg (ienv : I2CEnv) (aenv : AudioEnv) (s : BspState)
    (cfg : Es8311Cfg)
    (hmem : AudioStep.es8311_new cfg
        ∈ (bsp_audio_codec_speaker_init ienv aenv s).2.2) :
    cfg.codec_mode = CodecWorkMode.dac
    ∧ cfg.master_mode = false
    ∧ cfg.use_mclk = false
    ∧ cfg.hw_gain.pa_voltage = 5
    ∧ cfg.hw_gain.codec_dac_voltage = 33 / 10
    ∧ cfg.pa_pin = BSP_POWER_AMP_IO
    ∧ cfg.pa_reverted = false
    ∧ cfg.invert_mclk = false
    ∧ cfg.invert_sclk = false := by
  rcases speaker_init_shape ienv aenv s with h | h | h | ⟨t0, ht0, s1, h⟩
  · rw [h] at hmem; simp at hmem
  · rw [h] at hmem; simp at hmem
  · rw [h] at hmem; simp at hmem
  · rw [h] at hmem
    have hex : ∃ ctrl, cfg = speaker_es8311_cfg ctrl aenv.audio_codec_new_gpio_ret := by
      rcases ht0 with rfl | rfl
      · exact speaker_compose_es8311_cfg aenv s1 [AudioStep.get_itf_spk] cfg rfl hmem
      · exact speaker_compose_es8311_cfg aenv s1
          [AudioStep.get_itf_spk, AudioStep.i2c_init, AudioStep.audio_init,
            AudioStep.get_itf_spk] cfg rfl hmem
    obtain ⟨ctrl, rfl⟩ := hex
    exact ⟨rfl, rfl, rfl, rfl, rfl, rfl, rfl, rfl, rfl⟩

/-- Audio environment in which the speaker control interface exists and the
ES8311 factory is reached (used as a concrete witness). -/
def audioEnvSpkCtrl : AudioEnv :=
  { itf_spk_pre := some ()
    itf_spk_post := none
    itf_mic_pre := some ()
    itf_mic_post := none
    bsp_audio_init_ret := 0
    audio_codec_new_gpio_ret := none
    spk_i2c_ctrl := some 1
    mic_i2c_ctrl := none
    es8311_codec_new := fun _ => none
    es7210_codec_new := fun _ => none
    esp_codec_dev_new := fun _ => none }

/-- C8 witness: the configuration actually passed in a concrete run has all
the fixed field values. -/
theorem c8_speaker_codec_cfg_witness :
    (speaker_es8311_cfg 1 none).codec_mode = CodecWorkMode.dac
    ∧ (speaker_es8311_cfg 1 none).master_mode = false
    ∧ (speaker_es8311_cfg 1 none).use_mclk = false
    ∧ (speaker_es8311_cfg 1 none).hw_gain.pa_voltage = 5
    ∧ (speaker_es8311_cfg 1 none).hw_gain.codec_dac_voltage = 33 / 10
    ∧ (speaker_es8311_cfg 1 none).pa_pin = BSP_POWER_AMP_IO
    ∧ (speaker_es8311_cfg 1 none).pa_reverted = false
    ∧ (speaker_es8311_cfg 1 none).invert_mclk = false
    ∧ (speaker_es8311_cfg 1 none).invert_sclk = false :=
  c8_speaker_codec_cfg ⟨0, 0, 0⟩ audioEnvSpkCtrl ⟨false⟩ (speaker_es8311_cfg 1 none)
    (by simp [bsp_audio_codec_speaker_init, audioEnvSpkCtrl, speaker_compose])
